import Mathlib

/-!
Shallow embedding of the card-tracking HTTP API in `app/main.py`:
the error envelope builder, identity extractor, sanitizer/validator,
in-memory card store with its CRUD handlers, and the fixed-window
rate limiter keyed by `get_remote_address`.
-/

namespace CardApp

/-- The `CardColumn` string enum: todo, in-progress, done. -/
inductive CardColumn
  | todo
  | inProgress
  | done
deriving DecidableEq, Repr

/-- Parsing of the raw column string at the validation boundary:
pydantic accepts exactly the three enum values. -/
def CardColumn.parse (s : String) : Option CardColumn :=
  if s = "todo" then some CardColumn.todo
  else if s = "in-progress" then some CardColumn.inProgress
  else if s = "done" then some CardColumn.done
  else none

/-- The apostrophe character, U+0027. -/
def apos : Char := Char.ofNat 39

/-- Per-character replacement of CPython `html.escape` (quote=True):
amp, lt, gt, double quote and single quote map to their entities. -/
def escapeChar (c : Char) : List Char :=
  if c = '&' then ("&amp;").toList
  else if c = '<' then ("&lt;").toList
  else if c = '>' then ("&gt;").toList
  else if c = '"' then ("&quot;").toList
  else if c = apos then ("&#x27;").toList
  else [c]

/-- Model of `html.escape(value)` as used by the `sanitize` field validators. -/
def htmlEscape (s : String) : String := String.mk (s.data.flatMap escapeChar)

/-- Model of `AppException(status_code, title, detail)`: the app's own
error type; also used to model the errors the other registered
handlers render (validation, rate limit, unhandled). -/
structure AppError where
  status_code : Nat
  title : String
  detail : String
deriving DecidableEq, Repr

/-- The 401 error raised by `get_current_user_id`. -/
def authenticationError : AppError :=
  ⟨401, "Authentication Error", "X-User-ID header is missing."⟩

/-- The uniform 422 envelope content produced by
`validation_exception_handler` for any `RequestValidationError`. -/
def validationError : AppError :=
  ⟨422, "Validation Error", "Input validation failed."⟩

/-- The 404 error raised when no card with the given id exists. -/
def notFoundError (card_id : Nat) : AppError :=
  ⟨404, "Not Found", ("Card with id=" ++ toString card_id ++ " not found.")⟩

/-- The 403 error raised by `get_card_by_id` on ownership mismatch. -/
def accessDeniedGet : AppError :=
  ⟨403, "Access Denied", "You do not have permission to access this card."⟩

/-- The 403 error raised by `delete_card` on ownership mismatch. -/
def accessDeniedDelete : AppError :=
  ⟨403, "Access Denied", "You do not have permission to delete this card."⟩

/-- The 403 error raised by `update_card` on ownership mismatch. -/
def accessDeniedUpdate : AppError :=
  ⟨403, "Access Denied", "You do not have permission to update this card."⟩

/-- Model of `CardCreate` after successful pydantic validation: the title has
passed the raw length check and been HTML-escaped. -/
structure CardCreate where
  title : String
  column : CardColumn
deriving DecidableEq, Repr

/-- Pydantic validation of a `POST /cards` body. The `Field` length
constraints check the raw title (3..255 chars); the `sanitize`
field validator (mode after) then applies `html.escape`. The column
string must be one of the three enum values. Any violation is a
`RequestValidationError`, rendered as the uniform 422 envelope. -/
def validateCardCreate (rawTitle rawColumn : String) : Except AppError CardCreate :=
  if 3 ≤ rawTitle.length ∧ rawTitle.length ≤ 255 then
    match CardColumn.parse rawColumn with
    | some col => Except.ok ⟨htmlEscape rawTitle, col⟩
    | none => Except.error validationError
  else Except.error validationError

/-- Raw `PATCH /cards/{id}` body: each field either absent from the
request JSON or present with a raw string value. -/
structure PatchBody where
  title : Option String
  column : Option String
deriving DecidableEq, Repr

/-- Model of `CardUpdate` after successful pydantic validation. `title` is a
required field of the model (`title: str = Field(...)`, no default),
so it is always present here; `column` is `Optional` with default
None, so it carries through whether the request supplied it. -/
structure CardUpdateValidated where
  title : String
  column : Option CardColumn
deriving DecidableEq, Repr

/-- Pydantic validation of a `PATCH /cards/{id}` body against
`CardUpdate`: `title` is required (a body without it is a
`RequestValidationError`), length-checked raw, then escaped;
`column`, when present, must parse to the enum. -/
def validateCardUpdate (b : PatchBody) : Except AppError CardUpdateValidated :=
  match b.title with
  | none => Except.error validationError
  | some t =>
    if 3 ≤ t.length ∧ t.length ≤ 255 then
      match b.column with
      | none => Except.ok ⟨htmlEscape t, none⟩
      | some rawCol =>
        match CardColumn.parse rawCol with
        | some col => Except.ok ⟨htmlEscape t, some col⟩
        | none => Except.error validationError
    else Except.error validationError

/-- The stored `Card` model. -/
structure Card where
  id : Nat
  title : String
  column : CardColumn
  owner_id : String
deriving DecidableEq, Repr

/-- The module-level store: `_DB_CARDS` (a dict in insertion order,
modelled as an association list) and `_next_card_id`. -/
structure StoreState where
  cards : List (Nat × Card)
  next_id : Nat
deriving DecidableEq, Repr

/-- The store at process start: empty dict, counter at 1. -/
def initState : StoreState := ⟨[], 1⟩

/-- Model of `_DB_CARDS.get(card_id)`. -/
def dbGet (s : StoreState) (card_id : Nat) : Option Card :=
  (s.cards.find? (fun p => p.1 = card_id)).map (fun p => p.2)

/-- Model of `get_current_user_id`: reads the X-User-ID header; `if not user_id`
rejects both a missing header and an empty string with the fixed
401 error, otherwise returns the header value verbatim. -/
def get_current_user_id (header : Option String) : Except AppError String :=
  match header with
  | none => Except.error authenticationError
  | some u => if u = "" then Except.error authenticationError else Except.ok u

/-- Model of the `create_card` handler body (after validation and identity
extraction): build the card with id `_next_card_id`, insert it into
the dict, increment the counter, return the new card. -/
def create_card (ci : CardCreate) (owner_id : String) (s : StoreState) :
    Card × StoreState :=
  let newCard : Card := ⟨s.next_id, ci.title, ci.column, owner_id⟩
  (newCard, ⟨s.cards ++ [(s.next_id, newCard)], s.next_id + 1⟩)

/-- Model of the `get_cards_list` handler body: all stored cards owned by the
caller, in dict iteration order. -/
def get_cards_list (owner_id : String) (s : StoreState) : List Card :=
  (s.cards.map (fun p => p.2)).filter (fun c => c.owner_id = owner_id)

/-- Model of the `get_card_by_id` handler body: 404 when the id is absent, then 403
when the card's owner differs from the caller, else the card. -/
def get_card_by_id (card_id : Nat) (owner_id : String) (s : StoreState) :
    Except AppError Card :=
  match dbGet s card_id with
  | none => Except.error (notFoundError card_id)
  | some card =>
    if card.owner_id ≠ owner_id then Except.error accessDeniedGet
    else Except.ok card

/-- Model of the `delete_card` handler body: 404 when the id is absent, then 403 on
ownership mismatch, else `del _DB_CARDS[card_id]`. -/
def delete_card (card_id : Nat) (owner_id : String) (s : StoreState) :
    Except AppError StoreState :=
  match dbGet s card_id with
  | none => Except.error (notFoundError card_id)
  | some card =>
    if card.owner_id ≠ owner_id then Except.error accessDeniedDelete
    else Except.ok ⟨s.cards.filter (fun p => p.1 ≠ card_id), s.next_id⟩

/-- Model of the `update_card` handler body: 404 then 403 checks, then
`model_dump(exclude_unset=True)` merge: `title` (always set when the
body validated, being required) is overwritten, `column` only when
the request supplied it; the card is written back at the same key. -/
def update_card (card_id : Nat) (upd : CardUpdateValidated)
    (owner_id : String) (s : StoreState) : Except AppError (Card × StoreState) :=
  match dbGet s card_id with
  | none => Except.error (notFoundError card_id)
  | some card =>
    if card.owner_id ≠ owner_id then Except.error accessDeniedUpdate
    else
      let newCard : Card :=
        { card with title := upd.title, column := upd.column.getD card.column }
      Except.ok (newCard,
        ⟨s.cards.map (fun p => if p.1 = card_id then (card_id, newCard) else p),
         s.next_id⟩)

/-- Route pipeline for `POST /cards`: identity extraction, body validation, then
the handler. On any raised error the store is untouched. -/
def postCards (header : Option String) (rawTitle rawColumn : String)
    (s : StoreState) : Except AppError Card × StoreState :=
  match get_current_user_id header with
  | Except.error e => (Except.error e, s)
  | Except.ok owner =>
    match validateCardCreate rawTitle rawColumn with
    | Except.error e => (Except.error e, s)
    | Except.ok ci =>
      let (card, s2) := create_card ci owner s
      (Except.ok card, s2)

/-- Route pipeline for `GET /cards`: identity extraction then the list handler,
which never mutates the store. -/
def getCardsRoute (header : Option String) (s : StoreState) :
    Except AppError (List Card) × StoreState :=
  match get_current_user_id header with
  | Except.error e => (Except.error e, s)
  | Except.ok owner => (Except.ok (get_cards_list owner s), s)

/-- Route pipeline for `GET /cards` by id: identity extraction then the get
handler, which never mutates the store. -/
def getCardRoute (header : Option String) (card_id : Nat) (s : StoreState) :
    Except AppError Card × StoreState :=
  match get_current_user_id header with
  | Except.error e => (Except.error e, s)
  | Except.ok owner => (get_card_by_id card_id owner s, s)

/-- Route pipeline for `DELETE /cards` by id: identity extraction then the delete
handler; a raised error leaves the store untouched. -/
def deleteCardRoute (header : Option String) (card_id : Nat) (s : StoreState) :
    Except AppError Unit × StoreState :=
  match get_current_user_id header with
  | Except.error e => (Except.error e, s)
  | Except.ok owner =>
    match delete_card card_id owner s with
    | Except.error e => (Except.error e, s)
    | Except.ok s2 => (Except.ok (), s2)

/-- Route pipeline for `PATCH /cards` by id: identity extraction, body validation
against `CardUpdate`, then the update handler; a raised error leaves
the store untouched. -/
def patchCardRoute (header : Option String) (card_id : Nat) (body : PatchBody)
    (s : StoreState) : Except AppError Card × StoreState :=
  match get_current_user_id header with
  | Except.error e => (Except.error e, s)
  | Except.ok owner =>
    match validateCardUpdate body with
    | Except.error e => (Except.error e, s)
    | Except.ok upd =>
      match update_card card_id upd owner s with
      | Except.error e => (Except.error e, s)
      | Except.ok (card, s2) => (Except.ok card, s2)

/-! ### Error envelope builder (RFC 7807, ADR-002) -/

/-- The body emitted by `problem_json_response`: exactly the five
fields type, title, status, detail, correlation_id. -/
structure ErrorEnvelope where
  type : String
  title : String
  status : Nat
  detail : String
  correlation_id : String
deriving DecidableEq, Repr

/-- A rendered error response: transport status code plus envelope
body. -/
structure ProblemResponse where
  status_code : Nat
  body : ErrorEnvelope
deriving DecidableEq, Repr

/-- Model of `problem_json_response(status_code, title, detail)`: the freshly
generated uuid4 correlation id is passed in as a parameter. -/
def problem_json_response (status_code : Nat) (title detail : String)
    (correlation_id : String) : ProblemResponse :=
  ⟨status_code, ⟨"about:blank", title, status_code, detail, correlation_id⟩⟩

/-- The errors that can surface during request processing, one
constructor per registered exception handler: `AppException`,
`RequestValidationError`, `RateLimitExceeded` (carrying the rule
text), and any unhandled `Exception` (carrying its message). -/
inductive RaisedError
  | appExc (e : AppError)
  | requestValidation
  | rateLimitExceeded (ruleDetail : String)
  | unhandled (excMessage : String)
deriving DecidableEq, Repr

/-- The boundary dispatch over the four registered exception handlers:
every raised error becomes a `problem_json_response`. -/
def renderError (err : RaisedError) (correlation_id : String) : ProblemResponse :=
  match err with
  | RaisedError.appExc e =>
    problem_json_response e.status_code e.title e.detail correlation_id
  | RaisedError.requestValidation =>
    problem_json_response 422 ("Validation Error") ("Input validation failed.")
      correlation_id
  | RaisedError.rateLimitExceeded d =>
    problem_json_response 429 ("Rate Limit Exceeded")
      ("Rate limit exceeded: " ++ d) correlation_id
  | RaisedError.unhandled _ =>
    problem_json_response 500 ("Internal Server Error")
      ("An unexpected error occurred on the server.") correlation_id

/-! ### Rate limiter (ADR-003, slowapi with its default fixed window) -/

/-- A request as the limiter sees it: the client network address and
the X-User-ID identity it carries. -/
structure Request where
  address : String
  user_id : String
deriving DecidableEq, Repr

/-- Model of `get_remote_address`, the configured `key_func` of the limiter. -/
def get_remote_address (r : Request) : String := r.address

/-- One fixed-window counter: limiter key, hits in the current window,
window start time (seconds). -/
structure RateEntry where
  key : String
  count : Nat
  windowStart : Nat
deriving DecidableEq, Repr

/-- The limiter's in-memory storage, one entry per active key. -/
structure RateState where
  entries : List RateEntry
deriving DecidableEq, Repr

/-- Limiter storage at process start. -/
def initRate : RateState := ⟨[]⟩

/-- Look up the counter for a key. -/
def findEntry (st : RateState) (k : String) : Option RateEntry :=
  st.entries.find? (fun e => e.key = k)

/-- Store a counter for its key, replacing any previous one. -/
def setEntry (st : RateState) (e : RateEntry) : RateState :=
  ⟨e :: st.entries.filter (fun x => x.key ≠ e.key)⟩

/-- Fixed-window admission for a rule of `limit` hits per `window`
seconds: a fresh key or an elapsed window starts a new window with
count 1; below the limit the count increments; otherwise the
request is rejected (HTTP 429). -/
def rateAdmit (limit window : Nat) (st : RateState) (k : String) (now : Nat) :
    Bool × RateState :=
  match findEntry st k with
  | none => (true, setEntry st ⟨k, 1, now⟩)
  | some e =>
    if e.windowStart + window ≤ now then (true, setEntry st ⟨k, 1, now⟩)
    else if e.count < limit then
      (true, setEntry st ⟨k, e.count + 1, e.windowStart⟩)
    else (false, st)

/-- The `5/30second` rule on `POST /cards`, keyed by
`get_remote_address(request)`. -/
def limiterAdmit (st : RateState) (r : Request) (now : Nat) : Bool × RateState :=
  rateAdmit 5 30 st (get_remote_address r) now

/-- Run a sequence of timestamped requests through the limiter,
collecting each admission decision. -/
def runRequests (st : RateState) : List (Request × Nat) → RateState × List Bool
  | [] => (st, [])
  | (r, t) :: rest =>
    let (ok, st2) := limiterAdmit st r t
    let (stFin, decisions) := runRequests st2 rest
    (stFin, ok :: decisions)

/-! ### Store operation traces (for id assignment) -/

/-- A store-mutating operation, as issued by the create and delete
handlers after validation and identity extraction. -/
inductive StoreOp
  | create (ci : CardCreate) (owner_id : String)
  | delete (card_id : Nat) (owner_id : String)

/-- Apply one operation: a create always stores a card and reports the
id it assigned; a delete that raises (404/403) leaves the store as
it was and assigns nothing. -/
def stepOp (s : StoreState) : StoreOp → StoreState × List Nat
  | StoreOp.create ci owner =>
    let (card, s2) := create_card ci owner s
    (s2, [card.id])
  | StoreOp.delete card_id owner =>
    match delete_card card_id owner s with
    | Except.ok s2 => (s2, [])
    | Except.error _ => (s, [])

/-- Run a sequence of operations, collecting every assigned id in
order. -/
def runOps (s : StoreState) : List StoreOp → StoreState × List Nat
  | [] => (s, [])
  | op :: ops =>
    let (s2, ids) := stepOp s op
    let (sFin, rest) := runOps s2 ops
    (sFin, ids ++ rest)

/-- Number of creates in an operation sequence. -/
def countCreates : List StoreOp → Nat
  | [] => 0
  | StoreOp.create _ _ :: ops => countCreates ops + 1
  | StoreOp.delete _ _ :: ops => countCreates ops

/-- Store well-formedness: every stored key is below the counter (true
initially and preserved by every operation). -/
def WF (s : StoreState) : Prop := ∀ p ∈ s.cards, p.1 < s.next_id

/-! ### Helper lemmas -/

/-- Deleting key `i` from the dict does not change lookups of any other
key `j`. -/
theorem find?_filter_ne (l : List (Nat × Card)) (i j : Nat) (hij : j ≠ i) :
    (l.filter (fun p => p.1 ≠ i)).find? (fun p => p.1 = j) =
      l.find? (fun p => p.1 = j) := by
  induction l with
  | nil => rfl
  | cons a l ih =>
    by_cases ha : a.1 = i
    · have hj : ¬(decide (a.1 = j) = true) := by simpa using by omega
      rw [List.filter_cons_of_neg (by simpa using ha), ih,
        List.find?_cons_of_neg l hj]
    · by_cases hj : a.1 = j
      · rw [List.filter_cons_of_pos (by simpa using ha),
          List.find?_cons_of_pos _ (by simpa using hj),
          List.find?_cons_of_pos l (by simpa using hj)]
      · rw [List.filter_cons_of_pos (by simpa using ha),
          List.find?_cons_of_neg _ (by simpa using hj), ih,
          List.find?_cons_of_neg l (by simpa using hj)]

/-- If a list holds no entry for a key, a lookup lands in the appended
suffix. -/
theorem find?_append_of_none {α : Type} (l1 l2 : List α) (p : α → Bool)
    (h : l1.find? p = none) : (l1 ++ l2).find? p = l2.find? p := by
  rw [List.find?_append, h, Option.none_or]

/-- Lemma: `delete_card` never touches `_next_card_id`. -/
theorem delete_card_next_id (card_id : Nat) (owner : String) (s s2 : StoreState)
    (h : delete_card card_id owner s = Except.ok s2) : s2.next_id = s.next_id := by
  unfold delete_card at h
  split at h
  · exact absurd h (by simp)
  · split at h
    · exact absurd h (by simp)
    · rw [Except.ok.injEq] at h
      rw [← h]

/-- Trace of an operation sequence: the assigned ids are exactly the
consecutive run of counter values, and the counter advances by the
number of creates. -/
theorem runOps_spec (ops : List StoreOp) : ∀ s : StoreState,
    (runOps s ops).2 = List.range' s.next_id (countCreates ops) ∧
    (runOps s ops).1.next_id = s.next_id + countCreates ops := by
  induction ops with
  | nil => intro s; exact ⟨rfl, rfl⟩
  | cons op ops ih =>
    intro s
    cases op with
    | create ci owner =>
      have h := ih ⟨s.cards ++ [(s.next_id, ⟨s.next_id, ci.title, ci.column, owner⟩)],
        s.next_id + 1⟩
      simp only [runOps, stepOp, create_card, countCreates] at h ⊢
      rw [List.range'_succ]
      refine ⟨by rw [h.1, List.singleton_append], by rw [h.2]; omega⟩
    | delete card_id owner =>
      simp only [runOps, stepOp, countCreates]
      cases hd : delete_card card_id owner s with
      | ok s2 =>
        have h := ih s2
        have hn := delete_card_next_id card_id owner s s2 hd
        simp only [List.nil_append]
        rw [← hn]
        exact h
      | error e => simpa using ih s

/-- The apostrophe as a one-character string. -/
def aposS : String := String.mk [apos]

/-- The raw XSS probe title from the spec's scenario. -/
def xssTitle : String :=
  "<script>alert(" ++ aposS ++ "XSS" ++ aposS ++ ")</script>"

/-- A raw title of 100 left angle brackets: within the 255-char bound
raw, but 400 characters once escaped. -/
def bigTitle : String := String.mk (List.replicate 100 '<')

/-- Evaluation of a valid `POST /cards`: with an authenticated caller,
a parsable column and a raw title within the length bounds, the
route stores and returns the card built from the escaped title and
the current counter, and advances the counter. -/
theorem postCards_eq (header : Option String) (owner rawTitle rawColumn : String)
    (col : CardColumn) (s : StoreState)
    (hAuth : get_current_user_id header = Except.ok owner)
    (hCol : CardColumn.parse rawColumn = some col)
    (hLen : 3 ≤ rawTitle.length ∧ rawTitle.length ≤ 255) :
    postCards header rawTitle rawColumn s =
      (Except.ok ⟨s.next_id, htmlEscape rawTitle, col, owner⟩,
       ⟨s.cards ++ [(s.next_id, ⟨s.next_id, htmlEscape rawTitle, col, owner⟩)],
        s.next_id + 1⟩) := by
  unfold postCards validateCardCreate
  rw [hAuth, if_pos hLen, hCol]
  rfl

/-- Looking up the deleted key after `del _DB_CARDS[card_id]` finds
nothing. -/
theorem dbGet_delete_self (l : List (Nat × Card)) (n i : Nat) :
    dbGet ⟨l.filter (fun p => p.1 ≠ i), n⟩ i = none := by
  show ((l.filter (fun p => p.1 ≠ i)).find? (fun p => p.1 = i)).map
    (fun p => p.2) = none
  rw [List.find?_eq_none.mpr]
  · rfl
  · intro x hx
    have hx2 := (List.mem_filter.mp hx).2
    simp at hx2 ⊢
    omega

/-- Looking up any other key after `del _DB_CARDS[card_id]` is
unchanged. -/
theorem dbGet_delete_other (l : List (Nat × Card)) (n m i j : Nat) (hij : j ≠ i) :
    dbGet ⟨l.filter (fun p => p.1 ≠ i), n⟩ j = dbGet ⟨l, m⟩ j := by
  show ((l.filter (fun p => p.1 ≠ i)).find? (fun p => p.1 = j)).map (fun p => p.2)
    = (l.find? (fun p => p.1 = j)).map (fun p => p.2)
  rw [find?_filter_ne l i j hij]

/-- A card stored by create is found again at its id: the keys already
present are all below the counter, so the appended entry is the one
the lookup returns. -/
theorem dbGet_create (s : StoreState) (card : Card) (hWF : WF s) :
    dbGet ⟨s.cards ++ [(s.next_id, card)], s.next_id + 1⟩ s.next_id = some card := by
  show ((s.cards ++ [(s.next_id, card)]).find? (fun p => p.1 = s.next_id)).map
    (fun p => p.2) = some card
  rw [find?_append_of_none]
  · simp
  · apply List.find?_eq_none.mpr
    intro p hp
    have := hWF p hp
    simp
    omega

/-- Demo fixtures for concrete witnesses. -/
def demoCard : Card := ⟨1, "Task one", CardColumn.todo, "alice"⟩

/-- A second stored card with a different owner. -/
def demoCard2 : Card := ⟨2, "Task two", CardColumn.done, "bob"⟩

/-- A store holding only alice's card, counter at 2. -/
def demoState : StoreState := ⟨[(1, demoCard)], 2⟩

/-- A store holding alice's and bob's cards, counter at 3. -/
def demoState2 : StoreState := ⟨[(1, demoCard), (2, demoCard2)], 3⟩

/-- A validated update body carrying only a title. -/
def demoUpd : CardUpdateValidated := ⟨"Task three", none⟩

/-! ### Claim theorems -/

/-- C1, counterexample: the limiter is keyed by `get_remote_address`,
so with the `5/30second` rule, five requests by identity alice from
address 10.0.0.1 exhaust the budget and the very first request by
the distinct identity bob from the same address is denied — bob's
(N+1)-th-request-only guarantee fails with bob at zero requests. -/
theorem c1_cross_identity_denial :
    (⟨"10.0.0.1", "alice"⟩ : Request).user_id ≠
      (⟨"10.0.0.1", "bob"⟩ : Request).user_id ∧
    get_remote_address ⟨"10.0.0.1", "alice"⟩ =
      get_remote_address ⟨"10.0.0.1", "bob"⟩ ∧
    (runRequests initRate
      [(⟨"10.0.0.1", "alice"⟩, 0), (⟨"10.0.0.1", "alice"⟩, 0),
       (⟨"10.0.0.1", "alice"⟩, 0), (⟨"10.0.0.1", "alice"⟩, 0),
       (⟨"10.0.0.1", "alice"⟩, 0), (⟨"10.0.0.1", "bob"⟩, 0)]).2 =
      [true, true, true, true, true, false] := by
  exact ⟨by decide, rfl, by rfl⟩

/-- C1, amended: the rate-limit budget is keyed per client network
address, not per caller identity — the admit decision ignores the
identity entirely, and a request is denied exactly when the counter
for its address is at the limit inside an unexpired window,
regardless of which identities made the earlier requests. -/
theorem c1_address_keyed_budget (st : RateState) (a u1 u2 : String) (now : Nat) :
    limiterAdmit st ⟨a, u1⟩ now = limiterAdmit st ⟨a, u2⟩ now ∧
    ((limiterAdmit st ⟨a, u1⟩ now).1 = false ↔
      ∃ e, findEntry st a = some e ∧ 5 ≤ e.count ∧ now < e.windowStart + 30) := by
  refine ⟨rfl, ?_⟩
  simp only [limiterAdmit, rateAdmit, get_remote_address]
  cases h : findEntry st a with
  | none => simp
  | some e =>
    simp only [Option.some.injEq]
    by_cases hw : e.windowStart + 30 ≤ now
    · simp only [if_pos hw]
      constructor
      · intro hfalse; exact absurd hfalse (by simp)
      · rintro ⟨e2, he2, _, hnow⟩; subst he2; omega
    · simp only [if_neg hw]
      by_cases hc : e.count < 5
      · simp only [if_pos hc]
        constructor
        · intro hfalse; exact absurd hfalse (by simp)
        · rintro ⟨e2, he2, hcnt, _⟩; subst he2; omega
      · simp only [if_neg hc]
        exact ⟨fun _ => ⟨e, rfl, by omega, by omega⟩, fun _ => trivial⟩

/-- C2: the code rejects a PATCH that supplies only the column.
`CardUpdate.title` is declared required (`title: str = Field(...)`
with no default), so the body `{column: done}` fails pydantic
validation with the uniform 422 envelope and the store is left
untouched — for every store and card id, even an existing card
owned by the caller. -/
theorem c2_column_only_patch_rejected (s : StoreState) (card_id : Nat) :
    patchCardRoute (some ("alice")) card_id ⟨none, some ("done")⟩ s =
      (Except.error validationError, s) ∧
    validationError.status_code = 422 := by
  exact ⟨rfl, rfl⟩

/-- C7: every raised error is rendered through `problem_json_response`
as the five-field envelope whose status field equals the transport
status code and whose correlation id is the freshly generated one;
an unhandled exception yields 500 with the fixed generic detail,
and its rendering is independent of the exception's contents. -/
theorem c7_uniform_envelope (err : RaisedError) (cid m1 m2 : String) :
    (renderError err cid).body.status = (renderError err cid).status_code ∧
    (renderError err cid).body.type = "about:blank" ∧
    (renderError err cid).body.correlation_id = cid ∧
    renderError (RaisedError.unhandled m1) cid =
      renderError (RaisedError.unhandled m2) cid ∧
    (renderError (RaisedError.unhandled m1) cid).status_code = 500 ∧
    (renderError (RaisedError.unhandled m1) cid).body.detail =
      "An unexpected error occurred on the server." := by
  refine ⟨?_, ?_, ?_, rfl, rfl, rfl⟩ <;> cases err <;> rfl

/-- C8: starting from the initial store, any sequence of create and
delete operations assigns the ids 1, 2, 3, … in order — one per
create, strictly increasing, never repeated — and a delete (whether
it succeeds or raises) leaves the next-id counter unchanged. -/
theorem c8_sequential_ids_never_reused (ops : List StoreOp) :
    (runOps initState ops).2 = List.range' 1 (countCreates ops) ∧
    (runOps initState ops).2.Nodup ∧
    ∀ (s : StoreState) (card_id : Nat) (owner : String),
      (stepOp s (StoreOp.delete card_id owner)).1.next_id = s.next_id := by
  refine ⟨(runOps_spec ops initState).1, ?_, ?_⟩
  · rw [(runOps_spec ops initState).1]
    exact List.nodup_range' 1 (countCreates ops)
  · intro s card_id owner
    simp only [stepOp]
    cases hd : delete_card card_id owner s with
    | ok s2 => exact delete_card_next_id card_id owner s s2 hd
    | error e => rfl

/-- C3: get, delete, and update all check existence before ownership:
a missing id yields the 404 NotFound error for every caller (never
403), and an existing card with a different owner yields the
route's 403 AccessDenied error. -/
theorem c3_existence_before_ownership (card_id : Nat) (owner : String)
    (s : StoreState) (upd : CardUpdateValidated) :
    (dbGet s card_id = none →
      get_card_by_id card_id owner s = Except.error (notFoundError card_id) ∧
      delete_card card_id owner s = Except.error (notFoundError card_id) ∧
      update_card card_id upd owner s = Except.error (notFoundError card_id) ∧
      (notFoundError card_id).status_code = 404) ∧
    (∀ c, dbGet s card_id = some c → c.owner_id ≠ owner →
      get_card_by_id card_id owner s = Except.error accessDeniedGet ∧
      delete_card card_id owner s = Except.error accessDeniedDelete ∧
      update_card card_id upd owner s = Except.error accessDeniedUpdate ∧
      accessDeniedGet.status_code = 403 ∧ accessDeniedDelete.status_code = 403 ∧
      accessDeniedUpdate.status_code = 403) := by
  constructor
  · intro h
    refine ⟨?_, ?_, ?_, rfl⟩ <;>
      simp [get_card_by_id, delete_card, update_card, h]
  · intro c hc ho
    refine ⟨?_, ?_, ?_, rfl, rfl, rfl⟩ <;>
      simp [get_card_by_id, delete_card, update_card, hc, ho]

/-- C3 witness: in a store holding only alice's card 1, caller bob
gets 404 on the absent id 2 and 403 on the existing id 1. -/
theorem c3_witness :
    get_card_by_id 2 ("bob") demoState = Except.error (notFoundError 2) ∧
    get_card_by_id 1 ("bob") demoState = Except.error accessDeniedGet ∧
    delete_card 1 ("bob") demoState = Except.error accessDeniedDelete :=
  ⟨((c3_existence_before_ownership 2 ("bob") demoState demoUpd).1 (by decide)).1,
   ((c3_existence_before_ownership 1 ("bob") demoState demoUpd).2 demoCard
      (by decide) (by decide)).1,
   ((c3_existence_before_ownership 1 ("bob") demoState demoUpd).2 demoCard
      (by decide) (by decide)).2.1⟩

/-- C4: create validates the raw title length against the declared
schema: with an authenticated caller and a valid column, any raw
title of length 3..255 is created and stored, and any raw title
shorter than 3 or longer than 255 fails with the 422 validation
error and leaves the store untouched. -/
theorem c4_raw_title_length_validation (header : Option String)
    (owner rawTitle rawColumn : String) (col : CardColumn) (s : StoreState)
    (hAuth : get_current_user_id header = Except.ok owner)
    (hCol : CardColumn.parse rawColumn = some col) :
    (3 ≤ rawTitle.length ∧ rawTitle.length ≤ 255 →
      ∃ card s2, postCards header rawTitle rawColumn s = (Except.ok card, s2) ∧
        s2.cards = s.cards ++ [(card.id, card)]) ∧
    (rawTitle.length < 3 ∨ 255 < rawTitle.length →
      postCards header rawTitle rawColumn s = (Except.error validationError, s) ∧
      validationError.status_code = 422) := by
  constructor
  · intro hLen
    exact ⟨_, _, postCards_eq header owner rawTitle rawColumn col s hAuth hCol hLen,
      rfl⟩
  · intro hBad
    have hNot : ¬(3 ≤ rawTitle.length ∧ rawTitle.length ≤ 255) := by omega
    refine ⟨?_, rfl⟩
    unfold postCards validateCardCreate
    rw [hAuth, if_neg hNot]

/-- C4 witness: with caller alice and column todo, the 3-char title is
created and stored while the 2-char title is rejected with 422 and
the store stays empty. -/
theorem c4_witness :
    (∃ card s2, postCards (some ("alice")) ("abc") ("todo") initState =
      (Except.ok card, s2) ∧ s2.cards = initState.cards ++ [(card.id, card)]) ∧
    (postCards (some ("alice")) ("ab") ("todo") initState =
      (Except.error validationError, initState) ∧
     validationError.status_code = 422) :=
  ⟨(c4_raw_title_length_validation (some ("alice")) ("alice") ("abc") ("todo")
      CardColumn.todo initState rfl rfl).1 (by decide),
   (c4_raw_title_length_validation (some ("alice")) ("alice") ("ab") ("todo")
      CardColumn.todo initState rfl rfl).2 (by decide)⟩

/-- C5: after length validation the stored title is the raw input with
the five reserved markup characters HTML-escaped, applied exactly
once, with no re-check of the escaped length; in particular the
spec's XSS probe escapes to the documented entity form. -/
theorem c5_title_escaped_once (header : Option String)
    (owner rawTitle rawColumn : String) (col : CardColumn) (s : StoreState)
    (hAuth : get_current_user_id header = Except.ok owner)
    (hCol : CardColumn.parse rawColumn = some col)
    (hLen : 3 ≤ rawTitle.length ∧ rawTitle.length ≤ 255) :
    postCards header rawTitle rawColumn s =
      (Except.ok ⟨s.next_id, htmlEscape rawTitle, col, owner⟩,
       ⟨s.cards ++ [(s.next_id, ⟨s.next_id, htmlEscape rawTitle, col, owner⟩)],
        s.next_id + 1⟩) ∧
    htmlEscape xssTitle = "&lt;script&gt;alert(&#x27;XSS&#x27;)&lt;/script&gt;" :=
  ⟨postCards_eq header owner rawTitle rawColumn col s hAuth hCol hLen, by decide⟩

set_option maxRecDepth 8000 in
/-- C5 witness: a raw title of 100 left angle brackets (well inside the
255 bound) is stored as its 400-character escape — the escaped
value is stored even though it exceeds 255 characters. -/
theorem c5_witness :
    (postCards (some ("alice")) bigTitle ("todo") initState =
      (Except.ok ⟨initState.next_id, htmlEscape bigTitle, CardColumn.todo, "alice"⟩,
       ⟨initState.cards ++ [(initState.next_id,
          ⟨initState.next_id, htmlEscape bigTitle, CardColumn.todo, "alice"⟩)],
        initState.next_id + 1⟩) ∧
     htmlEscape xssTitle = "&lt;script&gt;alert(&#x27;XSS&#x27;)&lt;/script&gt;") ∧
    bigTitle.length ≤ 255 ∧ 255 < (htmlEscape bigTitle).length :=
  ⟨c5_title_escaped_once (some ("alice")) ("alice") bigTitle ("todo")
      CardColumn.todo initState rfl rfl (by decide),
   by decide, by decide⟩

/-- C6: a missing or empty X-User-ID header fails with the fixed 401
Authentication Error envelope, any non-empty value is returned
verbatim as the identity, and on the authentication failure every
card route returns the error with the store untouched. -/
theorem c6_identity_extraction (u cid : String) (hu : u ≠ "") :
    get_current_user_id none = Except.error authenticationError ∧
    get_current_user_id (some ("")) = Except.error authenticationError ∧
    get_current_user_id (some u) = Except.ok u ∧
    authenticationError.status_code = 401 ∧
    (renderError (RaisedError.appExc authenticationError) cid).status_code = 401 ∧
    (renderError (RaisedError.appExc authenticationError) cid).body.title =
      "Authentication Error" ∧
    (renderError (RaisedError.appExc authenticationError) cid).body.detail =
      "X-User-ID header is missing." ∧
    (∀ (header : Option String) (e : AppError) (s : StoreState)
        (rawTitle rawColumn : String) (card_id : Nat) (body : PatchBody),
      get_current_user_id header = Except.error e →
        postCards header rawTitle rawColumn s = (Except.error e, s) ∧
        getCardsRoute header s = (Except.error e, s) ∧
        getCardRoute header card_id s = (Except.error e, s) ∧
        deleteCardRoute header card_id s = (Except.error e, s) ∧
        patchCardRoute header card_id body s = (Except.error e, s)) := by
  refine ⟨rfl, rfl, ?_, rfl, rfl, rfl, rfl, ?_⟩
  · simp [get_current_user_id, hu]
  · intro header e s rawTitle rawColumn card_id body h
    refine ⟨?_, ?_, ?_, ?_, ?_⟩ <;>
      simp [postCards, getCardsRoute, getCardRoute, deleteCardRoute,
        patchCardRoute, h]

/-- C6 witness: the identity alice is extracted verbatim, and with the
header missing the delete route returns the 401 error and leaves
the demo store unchanged. -/
theorem c6_witness :
    get_current_user_id none = Except.error authenticationError ∧
    get_current_user_id (some ("alice")) = Except.ok ("alice") ∧
    deleteCardRoute none 1 demoState = (Except.error authenticationError, demoState) :=
  ⟨(c6_identity_extraction ("alice") ("cid-1") (by decide)).1,
   (c6_identity_extraction ("alice") ("cid-1") (by decide)).2.2.1,
   ((c6_identity_extraction ("alice") ("cid-1") (by decide)).2.2.2.2.2.2.2
      none authenticationError demoState ("t") ("c") 1 ⟨none, none⟩ rfl).2.2.2.1⟩

/-- C9: round trip — creating a card with a valid input and then
fetching the returned id with the same caller returns exactly the
card create returned (same id, escaped title, column, owner), with
the store unchanged by the read. -/
theorem c9_round_trip (header : Option String) (owner rawTitle rawColumn : String)
    (col : CardColumn) (s : StoreState) (hWF : WF s)
    (hAuth : get_current_user_id header = Except.ok owner)
    (hCol : CardColumn.parse rawColumn = some col)
    (hLen : 3 ≤ rawTitle.length ∧ rawTitle.length ≤ 255) :
    ∀ (card : Card) (s2 : StoreState),
      postCards header rawTitle rawColumn s = (Except.ok card, s2) →
      getCardRoute header card.id s2 = (Except.ok card, s2) := by
  intro card s2 hpost
  rw [postCards_eq header owner rawTitle rawColumn col s hAuth hCol hLen,
    Prod.mk.injEq] at hpost
  obtain ⟨hcard, hstate⟩ := hpost
  rw [Except.ok.injEq] at hcard
  subst hstate
  subst hcard
  unfold getCardRoute get_card_by_id
  rw [hAuth]
  have hfind := dbGet_create s ⟨s.next_id, htmlEscape rawTitle, col, owner⟩ hWF
  rw [hfind]
  simp

/-- C9 witness: create then get for caller alice on the empty store
round-trips the concrete card. -/
theorem c9_witness :
    getCardRoute (some ("alice"))
      (Card.mk 1 (htmlEscape ("abc")) CardColumn.todo ("alice")).id
      ⟨[(1, ⟨1, htmlEscape ("abc"), CardColumn.todo, "alice"⟩)], 2⟩ =
      (Except.ok ⟨1, htmlEscape ("abc"), CardColumn.todo, "alice"⟩,
       ⟨[(1, ⟨1, htmlEscape ("abc"), CardColumn.todo, "alice"⟩)], 2⟩) :=
  c9_round_trip (some ("alice")) ("alice") ("abc") ("todo") CardColumn.todo
    initState (by intro p hp; simp [initState] at hp) rfl rfl (by decide)
    ⟨1, htmlEscape ("abc"), CardColumn.todo, "alice"⟩
    ⟨[(1, ⟨1, htmlEscape ("abc"), CardColumn.todo, "alice"⟩)], 2⟩ rfl

/-- C10: a successful delete removes exactly the targeted card — its id
no longer resolves, every other id resolves to the same card as
before, and the next-id counter is unchanged — while the get and
list routes always return the store exactly as they received it. -/
theorem c10_delete_frame (header : Option String) (card_id : Nat)
    (s s2 : StoreState) :
    (deleteCardRoute header card_id s = (Except.ok (), s2) →
      dbGet s2 card_id = none ∧
      (∀ j, j ≠ card_id → dbGet s2 j = dbGet s j) ∧
      s2.next_id = s.next_id) ∧
    (∀ (h2 : Option String) (id2 : Nat) (s3 : StoreState),
      (getCardRoute h2 id2 s3).2 = s3 ∧ (getCardsRoute h2 s3).2 = s3) := by
  constructor
  · intro h
    unfold deleteCardRoute at h
    cases hu : get_current_user_id header with
    | error e => simp [hu] at h
    | ok owner =>
      simp only [hu] at h
      cases hd : delete_card card_id owner s with
      | error e => simp [hd] at h
      | ok s3 =>
        simp only [hd, Prod.mk.injEq] at h
        obtain ⟨-, hs⟩ := h
        subst hs
        unfold delete_card at hd
        cases hg : dbGet s card_id with
        | none => simp [hg] at hd
        | some card =>
          simp only [hg] at hd
          by_cases ho : card.owner_id ≠ owner
          · rw [if_pos ho] at hd; exact absurd hd (by simp)
          · rw [if_neg ho, Except.ok.injEq] at hd
            rw [← hd]
            have hn : s.next_id = s.next_id := rfl
            refine ⟨dbGet_delete_self s.cards s.next_id card_id, ?_, rfl⟩
            intro j hj
            have := dbGet_delete_other s.cards s.next_id s.next_id card_id j hj
            simpa using this
  · intro h2 id2 s3
    constructor
    · unfold getCardRoute
      cases hu : get_current_user_id h2 <;> rfl
    · unfold getCardsRoute
      cases hu : get_current_user_id h2 <;> rfl

/-- C10 witness: alice deletes her card 1 from the two-card store; card
1 is gone, bob's card 2 still resolves, the counter stays 3. -/
theorem c10_witness :
    dbGet ⟨[(2, demoCard2)], 3⟩ 1 = none ∧
    (∀ j, j ≠ 1 → dbGet ⟨[(2, demoCard2)], 3⟩ j = dbGet demoState2 j) ∧
    (⟨[(2, demoCard2)], 3⟩ : StoreState).next_id = demoState2.next_id :=
  (c10_delete_frame (some ("alice")) 1 demoState2 ⟨[(2, demoCard2)], 3⟩).1 rfl

end CardApp
